import Mathlib

/-!
Shallow embedding of the intent-routing and multi-agent orchestration core of
the `codevision_app` repository, together with proofs of its specified
properties.

Conventions of the embedding:
* External collaborators (the language-model client, the vector backend, the
  agents-SDK `Runner`) are passed in as explicit function/`Except` parameters:
  `Except.error e` models the collaborator raising an exception with message
  `e`, `Except.ok v` models a normal return of `v`.
* Python dicts that are returned to callers are modelled as association lists
  `List (String × RVal)` in the literal key order of the source, so that the
  presence or absence of a key is a provable fact.
* Python floats carry no arithmetic in the verified paths; they are modelled
  as `Rat`.
-/

namespace CodeVision

/-! ## Retrieval gateway — `agents/tools.py` -/

/-- The `metadata` mapping attached to a backend search result.  Only the keys
read by `vector_search_core` (`source`, `section`, `clause`) and the error
marker written by its failure branch are represented. -/
structure Metadata where
  source : Option String := none
  section_ : Option String := none
  clause : Option String := none
  error : Bool := false
deriving DecidableEq, Repr, Inhabited

/-- One raw result as returned by `VectorDBClient.similarity_search`: a dict
whose keys `vector_search_core` reads with `.get` and a default. -/
structure RawResult where
  content : Option String := none
  similarity_score : Option Rat := none
  metadata : Option Metadata := none
deriving DecidableEq, Repr, Inhabited

/-- One formatted passage as built by `vector_search_core` (the dict literal at
`tools.py` lines 44-51 and the error passage at lines 65-72). -/
structure Passage where
  content : String
  source : String
  section_ : String
  clause : String
  similarity_score : Rat
  metadata : Metadata
deriving DecidableEq, Repr, Inhabited

/-- Embedding of `vector_search_core` (`tools.py` lines 16-72).  `backend` is
the joint outcome of the statements inside the `try` block up to and
including the `similarity_search` call: `Except.ok results` when they return
`results` normally, `Except.error e` when one of them raises with message
`e`.  Note that `VectorDBClient.similarity_search` itself catches every
exception and returns `[]` (see `similarity_search` below), so the
`Except.error` case is realizable only through the deferred import or the
`VectorDBClient()` construction raising; `vector_search_via_client` is the
composition with that realizable shape.  The success branch formats each raw
result with the source's `.get` defaults; the `except` branch returns the
single error passage. -/
def vector_search_core (backend : Except String (List RawResult))
    (clause_type : Option String) : List Passage :=
  match backend with
  | Except.ok results =>
      results.map (fun r =>
        { content := r.content.getD ""
          source := (r.metadata.getD {}).source.getD "Unknown"
          section_ := (r.metadata.getD {}).section_.getD ""
          clause := (r.metadata.getD {}).clause.getD (clause_type.getD "")
          similarity_score := r.similarity_score.getD 0
          metadata := r.metadata.getD {} })
  | Except.error e =>
      [{ content := "Vector search failed: " ++ e
         source := "error"
         section_ := "error"
         clause := clause_type.getD "unknown"
         similarity_score := 0
         metadata := { error := true } }]

/-- Embedding of `VectorDBClient.similarity_search`
(`infrastructure/vector_db/client.py` lines 45-110).  Its whole body is
wrapped in `try`/`except Exception`; `backendCall` is the outcome of that
body (the Supabase RPC plus row formatting, whose formatted rows are the
`RawResult`s consumed by `vector_search_core`).  On any backend failure the
`except` branch at lines 108-110 logs and returns the empty list — it never
raises to the caller. -/
def similarity_search (backendCall : Except String (List RawResult)) : List RawResult :=
  match backendCall with
  | Except.ok results => results
  | Except.error _ => []

/-- The realizable composition of `vector_search_core` with the real
`VectorDBClient.similarity_search`: `setup` is the outcome of the
deferred import and the `VectorDBClient()` construction — the only statements in
`vector_search_core`'s `try` block that can raise — and `backendCall` is the
outcome of the vector backend call inside `similarity_search`, which is
caught there and so never contributes an `Except.error` to
`vector_search_core`. -/
def vector_search_via_client (setup : Except String Unit)
    (backendCall : Except String (List RawResult))
    (clause_type : Option String) : List Passage :=
  match setup with
  | Except.error e => vector_search_core (Except.error e) clause_type
  | Except.ok _ => vector_search_core (Except.ok (similarity_search backendCall)) clause_type

/-- De-duplication key of `get_building_code_context_core`:
`hash(result["content"][:100])`, modelled (collision-free) as the first-100
character list itself. -/
def contentKey (s : String) : List Char := s.data.take 100

/-- The de-duplication loop of `get_building_code_context_core` (`tools.py`
lines 92-99): walk `all_results` in order, keeping a result only when the hash
of its first 100 content characters has not been seen before. -/
def dedupByContentKey : List Passage → List (List Char) → List Passage
  | [], _ => []
  | r :: rest, seen =>
      if contentKey r.content ∈ seen then dedupByContentKey rest seen
      else r :: dedupByContentKey rest (contentKey r.content :: seen)

/-- The dict returned by `get_building_code_context_core` on its success path
(`tools.py` lines 101-107). -/
structure ContextResult where
  topics_researched : List String
  clause_type : String
  total_sources : Nat
  results : List Passage
  summary : String
deriving DecidableEq, Repr

/-- Embedding of `get_building_code_context_core` (`tools.py` lines 74-117).
`backend topic` is the outcome of the vector backend call that
`vector_search_core` makes for `topic` (the per-topic `limit=3` and
`similarity_threshold=0.7` arguments select which backend call is made and are
absorbed into `backend`).  One search is issued per topic, the results are
concatenated, de-duplicated by content prefix, and truncated to 10. -/
def get_building_code_context_core (backend : String → Except String (List RawResult))
    (topics : List String) (clause_type : String) : ContextResult :=
  let all_results := topics.flatMap (fun topic => vector_search_core (backend topic) (some clause_type))
  let unique_results := dedupByContentKey all_results []
  { topics_researched := topics
    clause_type := clause_type
    total_sources := unique_results.length
    results := unique_results.take 10
    summary := "Found " ++ toString unique_results.length ++ " unique sources across "
      ++ toString topics.length ++ " topics for " ++ clause_type }

/-! ## Intent classifier — `core/tools/intent_classifier.py` -/

/-- ASCII model of the regex word-character class `\w` used by the `\b`
boundaries in `_classify_by_keywords` (queries and keywords are ASCII). -/
def isWordChar (c : Char) : Bool := c.isAlphanum || c == '_'

/-- Whether a regex word boundary `\b` lies between two adjacent characters
(`none` means beyond an end of the string). -/
def wordBoundary (a b : Option Char) : Bool :=
  (match a with | some c => isWordChar c | none => false)
    != (match b with | some c => isWordChar c | none => false)

/-- Whether the pattern `\b kw \b` matches at the start of `s`, where `prev`
is the character immediately before `s` in the full query. -/
def matchHere (kw s : List Char) (prev : Option Char) : Bool :=
  kw.isPrefixOf s && wordBoundary prev s.head?
    && wordBoundary kw.getLast? (s.drop kw.length).head?

/-- Fuelled scanning loop for `countOcc`.  Each step consumes one unit of
fuel and advances by at least one character (by the whole keyword on a match,
as `re.findall` matches non-overlapping occurrences left to right), so fuel
equal to the length of the scanned list is always sufficient. -/
def countOccAux (kw : List Char) : Nat → List Char → Option Char → Nat
  | 0, _, _ => 0
  | _ + 1, [], _ => 0
  | fuel + 1, c :: rest, prev =>
    if kw ≠ [] ∧ matchHere kw (c :: rest) prev = true then
      1 + countOccAux kw fuel ((c :: rest).drop kw.length) kw.getLast?
    else
      countOccAux kw fuel rest (some c)

/-- Number of non-overlapping matches of `\b kw \b` in `s`, scanning left to
right as `re.findall` does; `prev` is the character before `s`. -/
def countOcc (kw : List Char) (s : List Char) (prev : Option Char) : Nat :=
  countOccAux kw s.length s prev

/-- Lower-cased character list of a string (Python `str.lower`, ASCII). -/
def lowerChars (s : String) : List Char := s.data.map Char.toLower

/-- Match count of one keyword in the query, both lower-cased:
`len(re.findall(r'\b' + re.escape(keyword.lower()) + r'\b', query_lower))`
(`intent_classifier.py` lines 119-120; `re.escape` makes the match literal). -/
def keywordMatches (kw : String) (query : String) : Nat :=
  countOcc (lowerChars kw) (lowerChars query) none

/-- Score of one intent: sum of the match counts of its keywords
(`intent_classifier.py` lines 116-121). -/
def intentScore (query : String) (keywords : List String) : Nat :=
  (keywords.map (fun kw => keywordMatches kw query)).sum

/-- The keyword registry built by `IntentClassifier._build_keyword_patterns`
(`intent_classifier.py` lines 27-70), in source order. -/
def keyword_patterns : List (String × List String) :=
  [("general_building",
    ["building classification", "class 1", "class 2", "class 3",
     "fire safety", "egress", "structural", "general building",
     "building code", "compliance", "permit"]),
   ("energy_efficiency",
    ["energy", "insulation", "r-value", "thermal", "hvac efficiency",
     "energy rating", "stars", "thermal performance", "glazing",
     "wall insulation", "roof insulation", "thermal bridge"]),
   ("building_envelope",
    ["envelope", "wall", "roof", "floor", "window", "door",
     "weatherproofing", "moisture", "air leakage", "ventilation",
     "building fabric", "external wall", "ceiling"]),
   ("mechanical_systems",
    ["mechanical", "hvac", "heating", "cooling", "ventilation",
     "air conditioning", "ductwork", "boiler", "heat pump",
     "refrigeration", "mechanical equipment"]),
   ("lighting",
    ["lighting", "artificial lighting", "natural light", "daylight",
     "illumination", "lux", "lighting control", "emergency lighting",
     "exit lighting", "light fixture"]),
   ("plumbing",
    ["plumbing", "water", "drainage", "sewer", "pipe", "fixture",
     "tap", "toilet", "basin", "water supply", "waste water",
     "greywater", "rainwater", "water efficiency"]),
   ("electrical",
    ["electrical", "wiring", "circuit", "switchboard", "outlet",
     "power", "electricity", "electrical safety", "rcd", "rcbo",
     "electrical installation", "cable", "conduit"]),
   ("accessibility",
    ["accessibility", "disabled access", "wheelchair", "ramp",
     "accessible toilet", "hearing loop", "tactile", "accessible parking",
     "disabled facilities", "universal design", "ada"])]

/-- One step of building `intent_scores`: an intent enters the table exactly
when its score is nonzero (`intent_classifier.py` lines 123-124). -/
def scoreEntry (query : String) (p : String × List String) : Option (String × Nat) :=
  let score := intentScore query p.2
  if score > 0 then some (p.1, score) else none

/-- The nonzero-score table `intent_scores` of `_classify_by_keywords`
(`intent_classifier.py` lines 113-124), in registry iteration order. -/
def intent_scores (query : String) : List (String × Nat) :=
  keyword_patterns.filterMap (scoreEntry query)

/-- Python's `max(intent_scores, key=intent_scores.get)`: the first entry, in
iteration order, whose score is maximal (later entries replace the current
best only when strictly greater). -/
def pickMax : List (String × Nat) → Option (String × Nat)
  | [] => none
  | p :: rest =>
    match pickMax rest with
    | none => some p
    | some q => if q.2 > p.2 then some q else some p

/-- Embedding of `IntentClassifier._classify_by_keywords`
(`intent_classifier.py` lines 100-132). -/
def classify_by_keywords (query : String) : Option String :=
  match pickMax (intent_scores query) with
  | some best => if best.2 ≥ 1 then some best.1 else none
  | none => none

/-- Python `str.strip` on a character list. -/
def stripChars (s : List Char) : List Char :=
  ((s.dropWhile Char.isWhitespace).reverse.dropWhile Char.isWhitespace).reverse

/-- Python `str.strip`. -/
def pyStrip (s : String) : String := String.mk (stripChars s.data)

/-- Python `str.lower` (ASCII). -/
def pyLower (s : String) : String := String.mk (s.data.map Char.toLower)

/-- Python's substring containment `a in b` on character lists (the empty
string is contained in everything). -/
def isSubChars (a : List Char) : List Char → Bool
  | [] => a.isEmpty
  | c :: t => a.isPrefixOf (c :: t) || isSubChars a t

/-- The user prompt built by `_classify_by_llm`
(`intent_classifier.py` line 158). -/
def llmPrompt (query : String) : String := "Query: " ++ query ++ "\n\nCategory:"

/-- The registered domain identifiers,
`valid_intents = list(self.keyword_patterns.keys())`. -/
def valid_intents : List String := keyword_patterns.map Prod.fst

/-- Embedding of `IntentClassifier._classify_by_llm`
(`intent_classifier.py` lines 134-185).  The language-model collaborator is
`llm`, applied to the prompt of line 158 (system message, temperature and
token limit are fixed configuration, absorbed into `llm`); `Except.error`
models `llm_client.generate` raising.  The response is stripped and
lower-cased, checked for exact membership in the registered intents, then for
a partial (substring either way) match, and otherwise falls back to
`"general_building"`; any exception also yields `"general_building"`. -/
def classify_by_llm (llm : String → Except String String) (query : String) : String :=
  match llm (llmPrompt query) with
  | Except.error _ => "general_building"
  | Except.ok response =>
    let intent := pyLower (pyStrip response)
    if valid_intents.contains intent then intent
    else
      match valid_intents.find? (fun v =>
          isSubChars v.data intent.data || isSubChars intent.data v.data) with
      | some v => v
      | none => "general_building"

/-- Embedding of `IntentClassifier.classify`
(`intent_classifier.py` lines 72-98): the keyword phase first, and the LLM
fallback only when it yields no intent.  The outer `except` branch (line 96,
returning `"general_building"`) is unreachable here because both embedded
phases are total — `_classify_by_llm` already catches its own exceptions. -/
def classify (llm : String → Except String String) (query : String) : String :=
  match classify_by_keywords query with
  | some intent => intent
  | none => classify_by_llm llm query

/-! ## Structured outputs — `agents/advanced/orchestration.py`, `guardrails.py` -/

/-- Output model of the three perspective agents
(`orchestration.py` lines 19-24). -/
structure AnalysisResult where
  analysis : String
  confidence : Rat
  agent_name : String
  recommendations : List String
deriving DecidableEq, Repr

/-- Output model of the consensus agent (`orchestration.py` lines 26-30). -/
structure ConsensusResult where
  final_recommendation : String
  consensus_level : Rat
  dissenting_opinions : List String
deriving DecidableEq, Repr

/-- Output model of the input guardrail agent (`guardrails.py` lines 27-32). -/
structure BuildingCodeValidation where
  is_building_code_query : Bool
  reasoning : String
  confidence : Rat
  topic_detected : String
deriving DecidableEq, Repr

/-- Output model of the output guardrail agent (`guardrails.py` lines 34-39). -/
structure SafetyValidation where
  is_safe_response : Bool
  reasoning : String
  contains_disclaimers : Bool
  professional_tone : Bool
deriving DecidableEq, Repr

/-- The `output_info` attached to a `GuardrailFunctionOutput`: either the
structured validation of the guard agent, or the error dict
`{"error": str(e)}` written by the fail-open branch. -/
inductive GuardInfo where
  | validation (v : BuildingCodeValidation)
  | safety (v : SafetyValidation)
  | evalError (e : String)
deriving DecidableEq, Repr

/-- The SDK's `GuardrailFunctionOutput`. -/
structure GuardrailFunctionOutput where
  output_info : GuardInfo
  tripwire_triggered : Bool
deriving DecidableEq, Repr

/-- A value stored in one of the Python result dicts modelled below. -/
inductive RVal where
  | s (v : String)
  | n (v : Nat)
  | r (v : Rat)
  | strs (v : List String)
  | analyses (v : List AnalysisResult)
  | guard (v : GuardInfo)
  | null
deriving DecidableEq, Repr

/-! ## Guardrails — `agents/advanced/guardrails.py` -/

/-- Embedding of `building_code_input_guardrail` (`guardrails.py` lines
88-128).  `guardEval` is the outcome of `Runner.run(guardrail_input_agent, …)`
on this input: `Except.error e` models that call raising an exception.  The
`except` branch fails open: tripwire not triggered, error recorded in
`output_info`. -/
def building_code_input_guardrail
    (guardEval : Except String BuildingCodeValidation) : GuardrailFunctionOutput :=
  match guardEval with
  | Except.ok validation =>
      { output_info := GuardInfo.validation validation
        tripwire_triggered := !validation.is_building_code_query }
  | Except.error e =>
      { output_info := GuardInfo.evalError e
        tripwire_triggered := false }

/-- Embedding of `safety_output_guardrail` (`guardrails.py` lines 130-167),
with the same fail-open `except` branch. -/
def safety_output_guardrail
    (guardEval : Except String SafetyValidation) : GuardrailFunctionOutput :=
  match guardEval with
  | Except.ok validation =>
      { output_info := GuardInfo.safety validation
        tripwire_triggered := !validation.is_safe_response }
  | Except.error e =>
      { output_info := GuardInfo.evalError e
        tripwire_triggered := false }

/-- The two SDK tripwire exceptions caught by `handle_guardrail_exceptions`. -/
inductive GuardrailExc where
  | inputTripwire (info : GuardInfo)
  | outputTripwire (info : GuardInfo)
deriving DecidableEq, Repr

/-- The fixed refusal text returned when the input guardrail trips
(`guardrails.py` lines 179-183). -/
def refusalMessage : String :=
  "I can only help with building code and construction regulation questions. "
    ++ "Please ask about building codes, fire safety, accessibility, energy efficiency, "
    ++ "or other construction-related topics."

/-- The fixed refusal text returned when the output guardrail trips
(`guardrails.py` lines 190-194). -/
def outputRefusalMessage : String :=
  "I generated a response that didn\x27t meet safety standards. "
    ++ "Please rephrase your building code question and I\x27ll provide "
    ++ "a safer, more appropriate response."

/-- Embedding of `handle_guardrail_exceptions` (`guardrails.py` lines
170-197): the wrapped callable's outcome is `outcome`, with the two tripwire
exceptions mapped to their fixed refusal dicts (`guardrail_info` holds the
exception's payload, standing for `str(e)`). -/
def handle_guardrail_exceptions
    (outcome : Except GuardrailExc (List (String × RVal))) : List (String × RVal) :=
  match outcome with
  | Except.ok result => result
  | Except.error (GuardrailExc.inputTripwire info) =>
      [("final_output", RVal.s refusalMessage),
       ("error", RVal.s "input_guardrail_triggered"),
       ("guardrail_info", RVal.guard info)]
  | Except.error (GuardrailExc.outputTripwire info) =>
      [("final_output", RVal.s outputRefusalMessage),
       ("error", RVal.s "output_guardrail_triggered"),
       ("guardrail_info", RVal.guard info)]

/-- Modelled from the spec: the agents SDK `Runner.run` semantics for an agent
carrying the two guardrails — the SDK is an external collaborator, not code
under `src/`; spec §4.5 fixes that the input guard runs first and, when it
trips, "execution is aborted before any specialist runs", and that the output
guard validates the produced answer afterwards.  `inputGuardEval` and
`outputGuardEval` are the outcomes of the guard agents' own collaborator
calls; `specialist q` returns the final answer together with the number of
retrieval-gateway calls that the specialist run performed (instrumentation
for the zero-retrieval property; the second component of the result). -/
def runWithGuardrails (inputGuardEval : Except String BuildingCodeValidation)
    (outputGuardEval : String → Except String SafetyValidation)
    (specialist : String → String × Nat) (query : String) :
    Except GuardrailExc (List (String × RVal)) × Nat :=
  let g := building_code_input_guardrail inputGuardEval
  if g.tripwire_triggered then
    (Except.error (GuardrailExc.inputTripwire g.output_info), 0)
  else
    let (answer, retrievalCalls) := specialist query
    let og := safety_output_guardrail (outputGuardEval answer)
    if og.tripwire_triggered then
      (Except.error (GuardrailExc.outputTripwire og.output_info), retrievalCalls)
    else
      (Except.ok [("final_output", RVal.s answer),
                  ("routing_method", RVal.s "native_sdk_handoffs")], retrievalCalls)

/-- Embedding of `AdvancedOrchestrator.process_query` (`agents.py` lines
232-263): run the triage agent under both guardrails and map tripwire
exceptions through `handle_guardrail_exceptions`.  The metadata keys
`last_agent`, `context` and `trace_id` of the success dict are not referenced
by any verified property and are omitted.  The second component is the
retrieval-gateway call count instrumentation. -/
def process_query (inputGuardEval : Except String BuildingCodeValidation)
    (outputGuardEval : String → Except String SafetyValidation)
    (specialist : String → String × Nat) (query : String) :
    List (String × RVal) × Nat :=
  let (outcome, retrievalCalls) :=
    runWithGuardrails inputGuardEval outputGuardEval specialist query
  (handle_guardrail_exceptions outcome, retrievalCalls)

/-! ## Parallel analysis — `agents/advanced/orchestration.py` lines 98-170 -/

/-- Rendering of a confidence value inside the analysis summary.  Python
formats it as fixed two-decimal text (`{analysis.confidence:.2f}`); the
rendering is irrelevant to every verified property, so the embedding uses the
canonical `Rat` rendering. -/
def fmtConfidence (c : Rat) : String := toString c

/-- The result-collection loop of `parallel_analysis` (`orchestration.py`
lines 124-137): successes and failures are gathered independently, in the
fixed perspective order. -/
def collectResults (results : List (Except String AnalysisResult × String)) :
    List AnalysisResult × List String :=
  results.foldl (fun acc p =>
    match p.1 with
    | Except.error e => (acc.1, acc.2 ++ [p.2 ++ ": " ++ e])
    | Except.ok a => (acc.1 ++ [a], acc.2)) ([], [])

/-- The `analysis_summary` string of `orchestration.py` lines 147-152. -/
def analysisSummary (analyses : List AnalysisResult) : String :=
  String.intercalate "\n\n" (analyses.map (fun a =>
    "**" ++ a.agent_name ++ "** (Confidence: " ++ fmtConfidence a.confidence ++ ")\n"
      ++ a.analysis ++ "\nRecommendations: "
      ++ String.intercalate ", " a.recommendations))

/-- Embedding of `parallel_analysis` (`orchestration.py` lines 98-170).  The
three perspective runs are abstracted as their outcomes (`asyncio.gather`
with `return_exceptions=True` turns a raised exception into an `Exception`
value, modelled by `Except.error`); `consensusRun` is the consensus agent's
run on the consensus input, modelled as succeeding — an exception there is
uncaught in the source and outside every claim. -/
def parallel_analysis (structural fire accessibility : Except String AnalysisResult)
    (consensusRun : String → ConsensusResult) (query : String) :
    List (String × RVal) :=
  let collected := collectResults
    [(structural, "Structural Analysis"),
     (fire, "Fire Safety Analysis"),
     (accessibility, "Accessibility Analysis")]
  let analyses := collected.1
  let errors := collected.2
  if analyses.isEmpty then
    [("final_output", RVal.s "Analysis failed due to errors in all parallel agents."),
     ("errors", RVal.strs errors),
     ("routing_method", RVal.s "parallel_analysis_failed")]
  else
    let consensus_input := "Query: " ++ query ++ "\n\nExpert Analyses:\n"
      ++ analysisSummary analyses
    let consensus := consensusRun consensus_input
    [("final_output", RVal.s consensus.final_recommendation),
     ("parallel_analyses", RVal.analyses analyses),
     ("consensus_level", RVal.r consensus.consensus_level),
     ("dissenting_opinions", RVal.strs consensus.dissenting_opinions),
     ("routing_method", RVal.s "parallel_analysis"),
     ("errors", if errors.isEmpty then RVal.null else RVal.strs errors)]

/-! ## Collaborative review — `agents/advanced/orchestration.py` lines 243-319 -/

/-- The acceptance check of `orchestration.py` line 302:
`"excellent" in critique.lower() or "good" in critique.lower()`. -/
def critiqueAccepted (critique : String) : Bool :=
  isSubChars "excellent".data (pyLower critique).data
    || isSubChars "good".data (pyLower critique).data

/-- The critique prompt of `orchestration.py` line 297. -/
def critiqueInput (query current_response : String) : String :=
  "Original Query: " ++ query ++ "\n\nResponse to Evaluate:\n" ++ current_response

/-- The improvement prompt of `orchestration.py` line 307. -/
def improvementInput (query current_response critique : String) : String :=
  "Original Query: " ++ query ++ "\n\nCurrent Response:\n" ++ current_response
    ++ "\n\nCritic Feedback:\n" ++ critique

/-- The review loop of `orchestration.py` lines 293-311.  `critic` and
`improver` are the two agent runs, as functions from their full prompt to
their `final_output`.  Returns (final response, last critique, value of
`iteration + 1` after the loop).  `fuel` is the number of loop iterations
still available and `iter` the number already completed; the entry call uses
`fuel = max_iterations = 3`. -/
def reviewGo (critic improver : String → String) (query : String) :
    Nat → Nat → String → String × String × Nat
  | 0, iter, current => (current, "", iter)
  | fuel + 1, iter, current =>
    let critique := critic (critiqueInput query current)
    if critiqueAccepted critique then
      (current, critique, iter + 1)
    else
      let improved := improver (improvementInput query current critique)
      match fuel with
      | 0 => (improved, critique, iter + 1)
      | _ + 1 => reviewGo critic improver query fuel (iter + 1) improved

/-- Embedding of `collaborative_review` (`orchestration.py` lines 243-319),
with `max_iterations = 3` as in the source, returning the dict literal of
lines 313-319. -/
def collaborative_review (critic improver : String → String)
    (query initial_response : String) : List (String × RVal) :=
  let loopOut := reviewGo critic improver query 3 0 initial_response
  [("final_output", RVal.s loopOut.1),
   ("initial_response", RVal.s initial_response),
   ("iterations_completed", RVal.n loopOut.2.2),
   ("routing_method", RVal.s "collaborative_review"),
   ("final_critique", RVal.s loopOut.2.1)]

/-! ## Delegation controller -/

/-- The caller-facing execution result of spec §3/§6: answer text, the domain
that produced it, and the delegation chain accumulated by the controller. -/
structure ExecutionResult where
  answer_text : String
  domain_used : String
  delegation_chain : List String
deriving DecidableEq, Repr

/-- Modelled from the spec: the Delegation Controller of spec §4.6.  The
hop-bounding delegation loop is executed by the external `agents` SDK
`Runner` over the handoff graph configured by `create_specialist_agents`
(`agents/advanced/agents.py` lines 124-167) and `_setup_handoffs`
(`agents/pure_sdk.py` lines 104-140); that loop is not code under `src/`.
Following the spec's words: after the executor `exec` produces a result, if a
trigger names another domain (`trigger d q = some d'` abstracts "exactly one
other domain's trigger matches", on arbitrary — including adversarial —
trigger functions) and the chain is still below the maximum, control is
re-invoked on the new domain with the chain extended; once the maximum is
reached the current result is returned unchanged, with no further delegation.
`fuel` equals `max_hops` minus the current chain length. -/
def runDelegation (exec : String → String → ExecutionResult)
    (trigger : String → String → Option String) :
    Nat → String → String → List String → ExecutionResult
  | 0, query, domain, chain =>
      { exec domain query with delegation_chain := chain }
  | fuel + 1, query, domain, chain =>
      let result := { exec domain query with delegation_chain := chain }
      match trigger domain query with
      | some next => runDelegation exec trigger fuel query next (chain ++ [next])
      | none => result

/-- Modelled from the spec: entry point of the Delegation Controller — route
to the initial domain with an empty chain and at most `max_hops` further
hops (spec §4.6, default `max_hops = 1`). -/
def delegationController (exec : String → String → ExecutionResult)
    (trigger : String → String → Option String)
    (max_hops : Nat) (query domain : String) : ExecutionResult :=
  runDelegation exec trigger max_hops query domain []

/-- Number of failed perspectives among the three parallel runs. -/
def failCount (r1 r2 r3 : Except String AnalysisResult) : Nat :=
  (match r1 with | Except.ok _ => 0 | Except.error _ => 1)
    + (match r2 with | Except.ok _ => 0 | Except.error _ => 1)
    + (match r3 with | Except.ok _ => 0 | Except.error _ => 1)

/-! ## Theorems -/

/-- Auxiliary bound for the delegation loop: the accumulated chain grows by at
most one domain per unit of remaining fuel. -/
theorem runDelegation_chain_le (exec : String → String → ExecutionResult)
    (trigger : String → String → Option String) :
    ∀ (fuel : Nat) (query domain : String) (chain : List String),
      (runDelegation exec trigger fuel query domain chain).delegation_chain.length
        ≤ chain.length + fuel := by
  intro fuel
  induction fuel with
  | zero => intro query domain chain; simp [runDelegation]
  | succ n ih =>
      intro query domain chain
      simp only [runDelegation]
      cases trigger domain query with
      | none => simp
      | some next =>
          have h := ih query next (chain ++ [next])
          simp [List.length_append] at h ⊢
          omega

/-- C1: for every executor, every trigger configuration — including an
adversarial one in which every domain's triggers always match — and every
query, the delegation chain of the final result has length at most the
configured `max_hops`; and once the maximum is reached (no fuel left) the
current result is returned unchanged, independent of the triggers, so no
further delegation happens and the recursion terminates. -/
theorem delegation_chain_bounded (exec : String → String → ExecutionResult)
    (trigger : String → String → Option String) (max_hops : Nat)
    (query domain : String) :
    (delegationController exec trigger max_hops query domain).delegation_chain.length
        ≤ max_hops ∧
    (∀ (trigger2 : String → String → Option String) (q d : String) (chain : List String),
      runDelegation exec trigger 0 q d chain = runDelegation exec trigger2 0 q d chain) := by
  constructor
  · have h := runDelegation_chain_le exec trigger max_hops query domain []
    simpa using h
  · intro trigger2 q d chain
    rfl

/-- C3 counterexample: a backend failure inside `similarity_search` (here
"connection refused", with the client setup succeeding) is caught there and
surfaces as a normal empty result, so `search` returns the empty list — not a
single-element sequence with an error-flagged passage as the claim states. -/
theorem backend_failure_yields_empty :
    vector_search_via_client (Except.ok ()) (Except.error "connection refused")
      (some "code_b") = ([] : List Passage) ∧
    ¬ (vector_search_via_client (Except.ok ()) (Except.error "connection refused")
        (some "code_b")).length = 1 := by decide

/-- C3 (amended): `search` never raises to its caller, but the two failure
layers behave differently.  A vector-backend failure is caught inside
`similarity_search` and returned as an empty list, so `search` returns an
empty, unflagged result; the single error-flagged passage (error-marked
metadata, `similarity_score` 0) is returned exactly when the client setup
(the deferred import or the `VectorDBClient()` construction) raises inside
`vector_search_core`. -/
theorem vector_search_failure_modes (e : String)
    (backendCall : Except String (List RawResult)) (clause_type : Option String) :
    similarity_search (Except.error e) = [] ∧
    vector_search_via_client (Except.ok ()) (Except.error e) clause_type = [] ∧
    vector_search_via_client (Except.error e) backendCall clause_type =
      [{ content := "Vector search failed: " ++ e
         source := "error"
         section_ := "error"
         clause := clause_type.getD "unknown"
         similarity_score := 0
         metadata := { error := true } }] := ⟨rfl, rfl, rfl⟩

/-- C9: if a guard's own evaluation call raises, the guard is treated as
passed — the tripwire is not triggered for either the input or the output
guard — the failure is recorded as a distinguishable `evalError` event rather
than a rejection, and the pipeline proceeds: even with both guard evaluations
failing, `process_query` returns the specialist's answer and the specialist
runs (its retrieval-call count is passed through). -/
theorem guard_eval_failure_fails_open (e e2 : String)
    (specialist : String → String × Nat) (query : String) :
    (building_code_input_guardrail (Except.error e)).tripwire_triggered = false ∧
    (safety_output_guardrail (Except.error e)).tripwire_triggered = false ∧
    (building_code_input_guardrail (Except.error e)).output_info = GuardInfo.evalError e ∧
    (safety_output_guardrail (Except.error e)).output_info = GuardInfo.evalError e ∧
    process_query (Except.error e) (fun _ => Except.error e2) specialist query =
      ([("final_output", RVal.s (specialist query).1),
        ("routing_method", RVal.s "native_sdk_handoffs")], (specialist query).2) := by
  refine ⟨rfl, rfl, rfl, rfl, ?_⟩
  simp [process_query, runWithGuardrails, building_code_input_guardrail,
    safety_output_guardrail, handle_guardrail_exceptions]

/-- C2: when the input guard judges the query out of scope
(`is_building_code_query` false), `process_query` returns the fixed refusal
dict — `error` equal to `"input_guardrail_triggered"` and the fixed refusal
message as the answer text — and the specialist never runs: the
retrieval-gateway call count is 0 whatever the specialist would have done. -/
theorem input_guard_trip_refusal (v : BuildingCodeValidation)
    (outputGuardEval : String → Except String SafetyValidation)
    (specialist : String → String × Nat) (query : String)
    (h : v.is_building_code_query = false) :
    process_query (Except.ok v) outputGuardEval specialist query =
      ([("final_output", RVal.s refusalMessage),
        ("error", RVal.s "input_guardrail_triggered"),
        ("guardrail_info", RVal.guard (GuardInfo.validation v))], 0) := by
  simp [process_query, runWithGuardrails, building_code_input_guardrail, h,
    handle_guardrail_exceptions]

/-- C2 witness: the out-of-scope query "what is the meaning of life" is
refused with `error = "input_guardrail_triggered"`, the fixed refusal message,
and zero retrieval-gateway calls, even though the specialist would have made
five retrieval calls. -/
theorem input_guard_trip_refusal_witness :
    process_query
        (Except.ok { is_building_code_query := false, reasoning := "off topic",
                     confidence := 9/10, topic_detected := "philosophy" })
        (fun _ => Except.ok { is_safe_response := true, reasoning := "",
                              contains_disclaimers := true, professional_tone := true })
        (fun _ => ("some answer", 5)) "what is the meaning of life" =
      ([("final_output", RVal.s refusalMessage),
        ("error", RVal.s "input_guardrail_triggered"),
        ("guardrail_info", RVal.guard (GuardInfo.validation
          { is_building_code_query := false, reasoning := "off topic",
            confidence := 9/10, topic_detected := "philosophy" }))], 0) :=
  input_guard_trip_refusal _ _ _ _ rfl

/-- C10: if the very first critique is accepted (contains "excellent" or
"good", case-insensitively), the loop exits before any improver invocation:
the returned `final_output` equals `initial_response` unchanged,
`iterations_completed` equals 1, and the whole result is independent of the
improver. -/
theorem review_first_critique_accepted (critic improver : String → String)
    (query initial_response : String)
    (h : critiqueAccepted (critic (critiqueInput query initial_response)) = true) :
    collaborative_review critic improver query initial_response =
      [("final_output", RVal.s initial_response),
       ("initial_response", RVal.s initial_response),
       ("iterations_completed", RVal.n 1),
       ("routing_method", RVal.s "collaborative_review"),
       ("final_critique", RVal.s (critic (critiqueInput query initial_response)))] := by
  simp [collaborative_review, reviewGo, h]

/-- C10 witness: with a critic that immediately answers "Good clarity", the
review of initial response "draft answer" returns it unchanged after exactly
one iteration, whatever the improver would have produced. -/
theorem review_first_critique_accepted_witness :
    collaborative_review (fun _ => "Good clarity") (fun s => s ++ "!") "q" "draft answer" =
      [("final_output", RVal.s "draft answer"),
       ("initial_response", RVal.s "draft answer"),
       ("iterations_completed", RVal.n 1),
       ("routing_method", RVal.s "collaborative_review"),
       ("final_critique", RVal.s "Good clarity")] :=
  review_first_critique_accepted _ _ _ _ (by decide)

/-- C5 counterexample: with a critic that always rejects, the returned dict
contains no `accepted` entry at all (so it cannot contain `accepted = false`),
even though the loop does run exactly 3 iterations. -/
theorem review_no_accepted_field :
    List.lookup "accepted"
      (collaborative_review (fun _ => "needs_improvement") (fun _ => "revised") "q" "a")
      = none ∧
    List.lookup "iterations_completed"
      (collaborative_review (fun _ => "needs_improvement") (fun _ => "revised") "q" "a")
      = some (RVal.n 3) := by decide

/-- C5 (amended): if the critic rejects on every iteration, the loop runs
exactly `max_iterations = 3` times — three critiques and three revisions are
produced — and the result carries the last revision as `final_output`,
`iterations_completed = 3`, and the final rejecting critique in
`final_critique`; non-acceptance is surfaced only through `final_critique`,
as the dict has no `accepted` field. -/
theorem review_always_rejected (critic improver : String → String)
    (query initial_response : String)
    (h : ∀ s, critiqueAccepted (critic s) = false) :
    (collaborative_review critic improver query initial_response =
      (let c1 := critic (critiqueInput query initial_response)
       let r1 := improver (improvementInput query initial_response c1)
       let c2 := critic (critiqueInput query r1)
       let r2 := improver (improvementInput query r1 c2)
       let c3 := critic (critiqueInput query r2)
       let r3 := improver (improvementInput query r2 c3)
       [("final_output", RVal.s r3),
        ("initial_response", RVal.s initial_response),
        ("iterations_completed", RVal.n 3),
        ("routing_method", RVal.s "collaborative_review"),
        ("final_critique", RVal.s c3)])) ∧
    List.lookup "accepted" (collaborative_review critic improver query initial_response)
      = none := by
  constructor
  · simp [collaborative_review, reviewGo, h]
  · simp [collaborative_review, reviewGo, h, List.lookup]

/-- C5 witness: an always-rejecting critic drives the loop through all three
iterations; the result reports `iterations_completed = 3`, the third revision,
the last critique, and no `accepted` field. -/
theorem review_always_rejected_witness :
    (collaborative_review (fun _ => "inadequate") (fun s => s ++ "+") "q" "a" =
      (let c1 := (fun (_ : String) => "inadequate") (critiqueInput "q" "a")
       let r1 := (fun (s : String) => s ++ "+") (improvementInput "q" "a" c1)
       let c2 := (fun (_ : String) => "inadequate") (critiqueInput "q" r1)
       let r2 := (fun (s : String) => s ++ "+") (improvementInput "q" r1 c2)
       let c3 := (fun (_ : String) => "inadequate") (critiqueInput "q" r2)
       let r3 := (fun (s : String) => s ++ "+") (improvementInput "q" r2 c3)
       [("final_output", RVal.s r3),
        ("initial_response", RVal.s "a"),
        ("iterations_completed", RVal.n 3),
        ("routing_method", RVal.s "collaborative_review"),
        ("final_critique", RVal.s c3)])) ∧
    List.lookup "accepted" (collaborative_review (fun _ => "inadequate") (fun s => s ++ "+") "q" "a")
      = none :=
  review_always_rejected (fun _ => "inadequate") (fun s => s ++ "+") "q" "a" (fun _ => rfl)

/-- C8: partial-failure semantics of parallel analysis.  First part: with
exactly one of the three perspectives failing (and a consensus collaborator
that produces non-empty recommendations), the result carries exactly 2
successful analyses, exactly 1 error entry, and a non-empty synthesis as
`final_output`.  Second part: with all three perspectives failing, the result
is the fixed failure dict carrying all three error messages, has no
`parallel_analyses` entry, and the synthesis step is never invoked — the
result is identical for every consensus collaborator. -/
theorem parallel_analysis_failure_semantics :
    (∀ (r1 r2 r3 : Except String AnalysisResult)
       (consensusRun : String → ConsensusResult) (query : String),
      failCount r1 r2 r3 = 1 →
      (∀ s, (consensusRun s).final_recommendation ≠ "") →
      (∃ l, List.lookup "parallel_analyses" (parallel_analysis r1 r2 r3 consensusRun query)
              = some (RVal.analyses l) ∧ l.length = 2) ∧
      (∃ es, List.lookup "errors" (parallel_analysis r1 r2 r3 consensusRun query)
              = some (RVal.strs es) ∧ es.length = 1) ∧
      (∃ t, List.lookup "final_output" (parallel_analysis r1 r2 r3 consensusRun query)
              = some (RVal.s t) ∧ t ≠ "")) ∧
    (∀ (e1 e2 e3 : String) (consensusRun : String → ConsensusResult) (query : String),
      parallel_analysis (Except.error e1) (Except.error e2) (Except.error e3) consensusRun query =
        [("final_output", RVal.s "Analysis failed due to errors in all parallel agents."),
         ("errors", RVal.strs ["Structural Analysis: " ++ e1,
                               "Fire Safety Analysis: " ++ e2,
                               "Accessibility Analysis: " ++ e3]),
         ("routing_method", RVal.s "parallel_analysis_failed")] ∧
      List.lookup "parallel_analyses"
          (parallel_analysis (Except.error e1) (Except.error e2) (Except.error e3) consensusRun query)
        = none ∧
      (∀ consensusRun2 : String → ConsensusResult,
        parallel_analysis (Except.error e1) (Except.error e2) (Except.error e3) consensusRun query =
          parallel_analysis (Except.error e1) (Except.error e2) (Except.error e3) consensusRun2 query)) := by
  constructor
  · intro r1 r2 r3 consensusRun query hone hne
    rcases r1 with e1 | a1 <;> rcases r2 with e2 | a2 <;> rcases r3 with e3 | a3 <;>
      simp only [failCount] at hone <;> try omega
    · exact ⟨⟨[a2, a3], rfl, rfl⟩,
        ⟨["Structural Analysis: " ++ e1], rfl, rfl⟩,
        ⟨(consensusRun ("Query: " ++ query ++ "\n\nExpert Analyses:\n"
            ++ analysisSummary [a2, a3])).final_recommendation, rfl, hne _⟩⟩
    · exact ⟨⟨[a1, a3], rfl, rfl⟩,
        ⟨["Fire Safety Analysis: " ++ e2], rfl, rfl⟩,
        ⟨(consensusRun ("Query: " ++ query ++ "\n\nExpert Analyses:\n"
            ++ analysisSummary [a1, a3])).final_recommendation, rfl, hne _⟩⟩
    · exact ⟨⟨[a1, a2], rfl, rfl⟩,
        ⟨["Accessibility Analysis: " ++ e3], rfl, rfl⟩,
        ⟨(consensusRun ("Query: " ++ query ++ "\n\nExpert Analyses:\n"
            ++ analysisSummary [a1, a2])).final_recommendation, rfl, hne _⟩⟩
  · intro e1 e2 e3 consensusRun query
    exact ⟨rfl, rfl, fun consensusRun2 => rfl⟩

/-- C8 witness: a concrete run with the fire-safety perspective failing keeps
the two successful analyses, one error entry, and a non-empty synthesis; and a
run with all three perspectives failing yields the fixed failure dict with all
three error messages, no analyses, and no consensus invocation. -/
theorem parallel_analysis_failure_semantics_witness :
    ((∃ l, List.lookup "parallel_analyses"
            (parallel_analysis
              (Except.ok { analysis := "s", confidence := 1, agent_name := "Structural Analysis Agent",
                           recommendations := ["a"] })
              (Except.error "timeout")
              (Except.ok { analysis := "x", confidence := 1/2, agent_name := "Accessibility Analysis Agent",
                           recommendations := [] })
              (fun _ => { final_recommendation := "synthesis", consensus_level := 1,
                          dissenting_opinions := [] }) "q")
            = some (RVal.analyses l) ∧ l.length = 2) ∧
      (∃ es, List.lookup "errors"
            (parallel_analysis
              (Except.ok { analysis := "s", confidence := 1, agent_name := "Structural Analysis Agent",
                           recommendations := ["a"] })
              (Except.error "timeout")
              (Except.ok { analysis := "x", confidence := 1/2, agent_name := "Accessibility Analysis Agent",
                           recommendations := [] })
              (fun _ => { final_recommendation := "synthesis", consensus_level := 1,
                          dissenting_opinions := [] }) "q")
            = some (RVal.strs es) ∧ es.length = 1) ∧
      (∃ t, List.lookup "final_output"
            (parallel_analysis
              (Except.ok { analysis := "s", confidence := 1, agent_name := "Structural Analysis Agent",
                           recommendations := ["a"] })
              (Except.error "timeout")
              (Except.ok { analysis := "x", confidence := 1/2, agent_name := "Accessibility Analysis Agent",
                           recommendations := [] })
              (fun _ => { final_recommendation := "synthesis", consensus_level := 1,
                          dissenting_opinions := [] }) "q")
            = some (RVal.s t) ∧ t ≠ "")) ∧
    parallel_analysis (Except.error "boom1") (Except.error "boom2") (Except.error "boom3")
        (fun _ => { final_recommendation := "synthesis", consensus_level := 1,
                    dissenting_opinions := [] }) "q" =
      [("final_output", RVal.s "Analysis failed due to errors in all parallel agents."),
       ("errors", RVal.strs ["Structural Analysis: boom1",
                             "Fire Safety Analysis: boom2",
                             "Accessibility Analysis: boom3"]),
       ("routing_method", RVal.s "parallel_analysis_failed")] :=
  ⟨parallel_analysis_failure_semantics.1 _ _ _ _ _ (by decide) (fun _ => by decide),
   (parallel_analysis_failure_semantics.2 "boom1" "boom2" "boom3" _ "q").1⟩

/-- Every passage retained by the de-duplication loop has an unseen content
key and is the first passage of the input carrying that key. -/
theorem dedup_mem_first (l : List Passage) :
    ∀ (seen : List (List Char)), ∀ p ∈ dedupByContentKey l seen,
      contentKey p.content ∉ seen ∧
      l.find? (fun q => contentKey q.content == contentKey p.content) = some p := by
  induction l with
  | nil => intro seen p hp; simp [dedupByContentKey] at hp
  | cons r rest ih =>
      intro seen p hp
      by_cases hr : contentKey r.content ∈ seen
      · rw [dedupByContentKey, if_pos hr] at hp
        obtain ⟨hnot, hfind⟩ := ih seen p hp
        have hne : contentKey r.content ≠ contentKey p.content := by
          intro he; exact hnot (he ▸ hr)
        refine ⟨hnot, ?_⟩
        rw [List.find?_cons_of_neg _ (by simpa using hne), hfind]
      · rw [dedupByContentKey, if_neg hr] at hp
        rcases List.mem_cons.mp hp with hp | hp
        · subst hp
          exact ⟨hr, by rw [List.find?_cons_of_pos _ (by simp)]⟩
        · obtain ⟨hnot, hfind⟩ := ih (contentKey r.content :: seen) p hp
          have hnot2 : contentKey p.content ∉ seen :=
            fun hmem => hnot (List.mem_cons_of_mem _ hmem)
          have hne : contentKey r.content ≠ contentKey p.content := by
            intro he; exact hnot (he ▸ List.mem_cons_self _ _)
          refine ⟨hnot2, ?_⟩
          rw [List.find?_cons_of_neg _ (by simpa using hne), hfind]

/-- The content keys of the de-duplicated list are pairwise distinct: sharing
passages are collapsed to a single retained entry. -/
theorem dedup_keys_nodup (l : List Passage) :
    ∀ (seen : List (List Char)),
      ((dedupByContentKey l seen).map (fun p => contentKey p.content)).Nodup := by
  induction l with
  | nil => intro seen; simp [dedupByContentKey]
  | cons r rest ih =>
      intro seen
      by_cases hr : contentKey r.content ∈ seen
      · rw [dedupByContentKey, if_pos hr]; exact ih seen
      · rw [dedupByContentKey, if_neg hr]
        simp only [List.map_cons, List.nodup_cons]
        refine ⟨?_, ih _⟩
        intro hmem
        obtain ⟨p, hp, hpk⟩ := List.mem_map.mp hmem
        exact (dedup_mem_first rest _ p hp).1 (hpk ▸ List.mem_cons_self _ _)

/-- Every passage of the input is represented in the de-duplicated list by a
retained passage with the same content key (or its key was already seen). -/
theorem dedup_covers (l : List Passage) :
    ∀ (seen : List (List Char)), ∀ q ∈ l,
      contentKey q.content ∈ seen ∨
      ∃ p ∈ dedupByContentKey l seen, contentKey p.content = contentKey q.content := by
  induction l with
  | nil => intro seen q hq; simp at hq
  | cons r rest ih =>
      intro seen q hq
      by_cases hr : contentKey r.content ∈ seen
      · rw [dedupByContentKey, if_pos hr]
        rcases List.mem_cons.mp hq with hq | hq
        · subst hq; exact Or.inl hr
        · exact ih seen q hq
      · rw [dedupByContentKey, if_neg hr]
        rcases List.mem_cons.mp hq with hq | hq
        · subst hq; exact Or.inr ⟨q, List.mem_cons_self _ _, rfl⟩
        · rcases ih (contentKey r.content :: seen) q hq with hin | ⟨p, hp, hpk⟩
          · rcases List.mem_cons.mp hin with heq | hin
            · exact Or.inr ⟨r, List.mem_cons_self _ _, heq.symm⟩
            · exact Or.inl hin
          · exact Or.inr ⟨p, List.mem_cons_of_mem _ hp, hpk⟩

/-- C4 counterexample: two topics each return one passage; the passages share
an identical first-100-character content prefix, the first has
`similarity_score` 0 and the second the strictly higher score 1.  They are
collapsed to one retained entry, but the retained entry is the
first-encountered one with score 0 — not the higher-scoring instance,
contradicting the claim. -/
theorem aggregate_keeps_first_not_highest :
    contentKey (String.mk (List.replicate 100 'a' ++ ['x']))
      = contentKey (String.mk (List.replicate 100 'a' ++ ['y'])) ∧
    ((get_building_code_context_core
        (fun topic =>
          if topic = "r-value" then
            Except.ok [{ content := some (String.mk (List.replicate 100 'a' ++ ['x'])),
                         similarity_score := some (0 : Rat) }]
          else
            Except.ok [{ content := some (String.mk (List.replicate 100 'a' ++ ['y'])),
                         similarity_score := some (1 : Rat) }])
        ["r-value", "r value"] "code_c").results.map Passage.similarity_score
      = [(0 : Rat)]) ∧
    (0 : Rat) < (1 : Rat) := by decide

/-- C4 (amended): `aggregate` issues one search per topic, concatenates, and
collapses passages sharing an identical first-100-character content prefix to
one retained entry — the first-encountered instance in concatenation order,
not the higher-scoring one — and the returned result list is truncated to at
most 10 entries.  Retained content keys are pairwise distinct and every
concatenated passage is represented in the de-duplicated list. -/
theorem aggregate_dedup_first_instance_and_cap
    (backend : String → Except String (List RawResult)) (topics : List String)
    (clause_type : String) :
    ((get_building_code_context_core backend topics clause_type).results.length ≤ 10) ∧
    (∀ p ∈ (get_building_code_context_core backend topics clause_type).results,
      (topics.flatMap (fun t => vector_search_core (backend t) (some clause_type))).find?
          (fun q => contentKey q.content == contentKey p.content) = some p) ∧
    (((get_building_code_context_core backend topics clause_type).results.map
        (fun p => contentKey p.content)).Nodup) ∧
    (∀ q ∈ topics.flatMap (fun t => vector_search_core (backend t) (some clause_type)),
      ∃ p ∈ dedupByContentKey
          (topics.flatMap (fun t => vector_search_core (backend t) (some clause_type))) [],
        contentKey p.content = contentKey q.content) := by
  refine ⟨?_, ?_, ?_, ?_⟩
  · exact List.length_take_le _ _
  · intro p hp
    exact (dedup_mem_first _ [] p (List.mem_of_mem_take hp)).2
  · have h := dedup_keys_nodup
      (topics.flatMap (fun t => vector_search_core (backend t) (some clause_type))) []
    simpa [get_building_code_context_core, List.map_take] using
      h.take (n := 10)
  · intro q hq
    rcases dedup_covers _ [] q hq with hin | h
    · simp at hin
    · exact h

/-- C4 witness: on a single-topic aggregate whose backend returns one passage,
the cap, the first-instance retention and the coverage all hold of the
concrete result. -/
theorem aggregate_dedup_first_instance_and_cap_witness :
    ((get_building_code_context_core
        (fun _ => Except.ok [{ content := some "alpha", similarity_score := some 1 }])
        ["t"] "code_b").results.length ≤ 10) ∧
    (["t"].flatMap (fun t =>
        vector_search_core
          ((fun _ => Except.ok [{ content := some "alpha", similarity_score := some (1 : Rat) }]) t)
          (some "code_b"))).find?
        (fun q => contentKey q.content ==
          contentKey (Passage.content
            { content := "alpha", source := "Unknown", section_ := "", clause := "code_b",
              similarity_score := 1, metadata := {} }))
      = some { content := "alpha", source := "Unknown", section_ := "", clause := "code_b",
               similarity_score := 1, metadata := {} } :=
  ⟨(aggregate_dedup_first_instance_and_cap
      (fun _ => Except.ok [{ content := some "alpha", similarity_score := some 1 }])
      ["t"] "code_b").1,
   (aggregate_dedup_first_instance_and_cap
      (fun _ => Except.ok [{ content := some "alpha", similarity_score := some 1 }])
      ["t"] "code_b").2.1
    { content := "alpha", source := "Unknown", section_ := "", clause := "code_b",
      similarity_score := 1, metadata := {} } (by decide)⟩

/-- If every registry entry of `l` scores zero on `query`, the nonzero-score
table over `l` is empty. -/
theorem filterScores_nil (query : String) :
    ∀ (l : List (String × List String)),
      (∀ p ∈ l, intentScore query p.2 = 0) →
      l.filterMap (scoreEntry query) = [] := by
  intro l
  induction l with
  | nil => intro _; rfl
  | cons p rest ih =>
      intro h
      have hp : intentScore query p.2 = 0 := h p (List.mem_cons_self _ _)
      rw [List.filterMap_cons]
      rw [show scoreEntry query p = none by simp [scoreEntry, hp]]
      exact ih (fun q hq => h q (List.mem_cons_of_mem _ hq))

/-- If the keys of `l` are distinct, `(d, kws)` is an entry of `l` with a
nonzero score, and every other entry scores zero, then the maximum-score
selection over the nonzero table picks exactly `(d, score)`. -/
theorem pickMax_unique (query : String) :
    ∀ (l : List (String × List String)), (l.map Prod.fst).Nodup →
      ∀ d kws, (d, kws) ∈ l → 1 ≤ intentScore query kws →
      (∀ p ∈ l, p.1 ≠ d → intentScore query p.2 = 0) →
      pickMax (l.filterMap (scoreEntry query)) = some (d, intentScore query kws) := by
  intro l
  induction l with
  | nil => intro _ d kws h; simp at h
  | cons p0 rest ih =>
      intro hnd d kws hmem hpos hothers
      simp only [List.map_cons, List.nodup_cons] at hnd
      rcases List.mem_cons.mp hmem with heq | hmem'
      · have hrest0 : ∀ p ∈ rest, intentScore query p.2 = 0 := by
          intro p hp
          apply hothers p (List.mem_cons_of_mem _ hp)
          intro he
          apply hnd.1
          have hd : p0.1 = d := by rw [← heq]
          rw [hd, ← he]
          exact List.mem_map.mpr ⟨p, hp, rfl⟩
        rw [List.filterMap_cons, filterScores_nil query rest hrest0]
        rw [show scoreEntry query p0 = some (d, intentScore query kws) by
          rw [← heq]; simp [scoreEntry]; omega]
        rfl
      · have hp0 : intentScore query p0.2 = 0 := by
          apply hothers p0 (List.mem_cons_self _ _)
          intro he
          apply hnd.1
          rw [he]
          exact List.mem_map.mpr ⟨(d, kws), hmem', rfl⟩
        rw [List.filterMap_cons]
        rw [show scoreEntry query p0 = none by simp [scoreEntry, hp0]]
        exact ih hnd.2 d kws hmem' hpos
          (fun p hp hne => hothers p (List.mem_cons_of_mem _ hp) hne)

/-- C6: if the query scores at least one keyword match for domain `d` and
zero for every other registered domain (case-insensitive, word-boundary
matched), then the keyword phase already resolves to `d` and `classify`
returns `d` for every language-model collaborator — the fallback is never
consulted. -/
theorem classify_unique_keyword_domain (llm : String → Except String String)
    (query d : String) (kws : List String)
    (hmem : (d, kws) ∈ keyword_patterns)
    (hpos : 1 ≤ intentScore query kws)
    (hothers : ∀ p ∈ keyword_patterns, p.1 ≠ d → intentScore query p.2 = 0) :
    classify_by_keywords query = some d ∧ classify llm query = d := by
  have hnd : (keyword_patterns.map Prod.fst).Nodup := by decide
  have hmax := pickMax_unique query keyword_patterns hnd d kws hmem hpos hothers
  have hcbk : classify_by_keywords query = some d := by
    unfold classify_by_keywords intent_scores
    rw [hmax]
    simp [hpos]
  exact ⟨hcbk, by simp [classify, hcbk]⟩

/-- C6 witness: the query "lux" matches one `lighting` keyword and no keyword
of any other domain, so classification resolves to `lighting` even when the
language model is down. -/
theorem classify_unique_keyword_domain_witness :
    classify_by_keywords "lux" = some "lighting" ∧
    classify (fun _ => Except.error "llm down") "lux" = "lighting" :=
  classify_unique_keyword_domain (fun _ => Except.error "llm down") "lux" "lighting"
    ["lighting", "artificial lighting", "natural light", "daylight",
     "illumination", "lux", "lighting control", "emergency lighting",
     "exit lighting", "light fixture"]
    (by decide) (by decide) (by decide)

/-- The LLM fallback always returns a registered domain identifier, whatever
the collaborator answers and also when it raises. -/
theorem classify_by_llm_mem (llm : String → Except String String) (query : String) :
    classify_by_llm llm query ∈ valid_intents := by
  unfold classify_by_llm
  cases llm (llmPrompt query) with
  | error e => exact (by decide : "general_building" ∈ valid_intents)
  | ok response =>
      by_cases hc : valid_intents.contains (pyLower (pyStrip response))
      · simp only [hc, if_true]
        exact List.mem_of_elem_eq_true hc
      · simp only [hc, if_false, Bool.false_eq_true]
        cases hf : valid_intents.find? (fun v =>
            isSubChars v.data (pyLower (pyStrip response)).data
              || isSubChars (pyLower (pyStrip response)).data v.data) with
        | some v => exact List.mem_of_find?_eq_some hf
        | none => decide

/-- C7: if the query matches zero keywords of every registered domain,
`classify` invokes the fallback path, the returned identifier is always a
member of the registered domain set — also when the collaborator answers an
unrecognized label — and when the collaborator raises, the configured
fallback domain `general_building` is returned, so classification never
aborts. -/
theorem classify_zero_keywords_fallback (llm : String → Except String String)
    (query : String)
    (h : ∀ p ∈ keyword_patterns, intentScore query p.2 = 0) :
    classify llm query = classify_by_llm llm query ∧
    classify llm query ∈ valid_intents ∧
    (∀ e, classify (fun _ => Except.error e) query = "general_building") := by
  have hnil : intent_scores query = [] := filterScores_nil query keyword_patterns h
  have hcbk : classify_by_keywords query = none := by
    unfold classify_by_keywords
    rw [hnil]
    rfl
  refine ⟨by simp [classify, hcbk], ?_, ?_⟩
  · rw [show classify llm query = classify_by_llm llm query by simp [classify, hcbk]]
    exact classify_by_llm_mem llm query
  · intro e
    simp [classify, hcbk, classify_by_llm]

/-- C7 witness: "hello there" matches no keyword; with a collaborator that
answers the unregistered label "banana" the fallback path still returns a
registered domain, and with a raising collaborator it returns
`general_building`. -/
theorem classify_zero_keywords_fallback_witness :
    classify (fun _ => Except.ok "banana") "hello there"
        = classify_by_llm (fun _ => Except.ok "banana") "hello there" ∧
    classify (fun _ => Except.ok "banana") "hello there" ∈ valid_intents ∧
    (∀ e, classify (fun _ => Except.error e) "hello there" = "general_building") :=
  classify_zero_keywords_fallback (fun _ => Except.ok "banana") "hello there" (by decide)

end CodeVision
